import Mathlib

/-!
Shallow embedding of the theme-derivation and configuration-diff engine of the
chat-widget SDK (src/src/ChatBot.js), together with proofs about the claims of
its specification.

Conventions of the embedding:
* JS strings are Lean `String`s; JS `undefined`-able values are `Option`s.
* The fractional arithmetic of the source (`0.299·r`, `r·0.8`,
  `2.55·percent`, …) is embedded exactly: every comparison of such values is
  replaced by the equivalent comparison of integers (both sides scaled by the
  common denominator) and every `Math.round` of such a value by the rounded
  exact fraction `jsRoundFrac`.  Each replacement is recorded in the doc
  comment of the definition it occurs in.  The exact values at the concrete
  call sites of the source are far further from every rounding/comparison
  boundary than double-precision rounding error, so the exact semantics
  agrees with the IEEE-754 semantics there.
* `parseInt(s, 16)` is `jsParseIntHex`: the longest hex-digit prefix of `s`,
  `none` standing for JS `NaN`.  The call sites never pass strings with
  leading whitespace, signs, or a `0x` marker, so this captures `parseInt`.
-/

namespace ChatSdk

/-- Value of one hex digit, as accepted by `parseInt(·, 16)`. -/
def hexDigitVal (c : Char) : Option Nat :=
  if '0' ≤ c ∧ c ≤ '9' then some (c.toNat - '0'.toNat)
  else if 'a' ≤ c ∧ c ≤ 'f' then some (c.toNat - 'a'.toNat + 10)
  else if 'A' ≤ c ∧ c ≤ 'F' then some (c.toNat - 'A'.toNat + 10)
  else none

/-- Accumulate the value of a maximal hex-digit run. -/
def parseHexAux : List Char → Nat → Nat
  | [], acc => acc
  | c :: rest, acc =>
    match hexDigitVal c with
    | some d => parseHexAux rest (acc * 16 + d)
    | none => acc

/-- Model of JS `parseInt(s, 16)`: parses the longest prefix of hex digits,
`none` (JS `NaN`) when the string does not start with a hex digit. -/
def jsParseIntHex (s : String) : Option Nat :=
  match s.data with
  | [] => none
  | c :: _ =>
    match hexDigitVal c with
    | some _ => some (parseHexAux s.data 0)
    | none => none

/-- JS `s.substr(start, len)`. -/
def jsSubstr (s : String) (start len : Nat) : String :=
  ⟨(s.data.drop start).take len⟩

/-- JS `s.slice(1)`. -/
def jsSlice1 (s : String) : String :=
  ⟨s.data.drop 1⟩

/-- JS `s.startsWith(p)`. -/
def jsStartsWith (s p : String) : Bool :=
  p.data.isPrefixOf s.data

/-- JS `s.replace(hashChar, emptyString)`: removes the first occurrence of the
`#` character. -/
def removeFirstHash : List Char → List Char
  | [] => []
  | c :: rest => if c = '#' then rest else c :: removeFirstHash rest

/-- JS `color.replace(hashChar, emptyString)`. -/
def jsReplaceHash (s : String) : String :=
  ⟨removeFirstHash s.data⟩

/-- JS `s.toLowerCase()` (the inputs are ASCII color strings). -/
def jsToLower (s : String) : String :=
  ⟨s.data.map Char.toLower⟩

/-- JS `s.trim()`. -/
def jsTrim (s : String) : String :=
  ⟨((s.data.dropWhile Char.isWhitespace).reverse.dropWhile Char.isWhitespace).reverse⟩

/-- JS truthiness of an optional string: present and nonempty. -/
def jsTruthy : Option String → Bool
  | some s => s ≠ ""
  | none => false

/-- JS `a || b` for an optional string `a` and a fallback string `b`. -/
def jsOr (a : Option String) (b : String) : String :=
  match a with
  | some s => if s = "" then b else s
  | none => b

/-- JS `a || b` on two strings. -/
def jsOrS (a b : String) : String :=
  if a = "" then b else a

/-- JS `a || b` on two optional strings. -/
def jsOrOpt (a b : Option String) : Option String :=
  if jsTruthy a then a else b

/-- JS `Math.round` applied to the exact fraction `m / n` (with `n > 0`):
`Math.round x = ⌊x + 1/2⌋` in JS (half-way cases round toward +∞), and
`⌊m/n + 1/2⌋ = ⌊(2m + n) / (2n)⌋`, a floor division of integers. -/
def jsRoundFrac (m n : ℤ) : ℤ :=
  Int.fdiv (2 * m + n) (2 * n)

/-- Lowercase hex digit character, as produced by `Number.toString(16)`. -/
def hexChar (n : Nat) : Char :=
  if n < 10 then Char.ofNat ('0'.toNat + n) else Char.ofNat ('a'.toNat + (n - 10))

/-- Base-16 digit accumulator: prepends the digits of `n` to `acc`, most
significant digit first.  The fuel argument only serves structural
termination; `n + 1` units always suffice since `n` shrinks by a factor of 16
each step. -/
def hexDigitsCore : Nat → Nat → List Char → List Char
  | 0, _, acc => acc
  | fuel + 1, n, acc =>
    if n < 16 then hexChar n :: acc
    else hexDigitsCore fuel (n / 16) (hexChar (n % 16) :: acc)

/-- Base-16 digit list of a natural number, most significant digit first,
mirroring `Number.toString(16)` on nonnegative integers. -/
def hexDigitsList (n : Nat) : List Char :=
  hexDigitsCore (n + 1) n []

/-- JS `n.toString(16)` for an integer. -/
def jsToString16 (n : ℤ) : String :=
  if n < 0 then "-" ++ ⟨hexDigitsList (-n).toNat⟩ else ⟨hexDigitsList n.toNat⟩

/-- JS `s.padStart(2, zeroChar)`. -/
def padStart2 (s : String) : String :=
  if s.length = 0 then "00"
  else if s.length = 1 then "0" ++ s
  else s

/-- One output byte of `darkenColor`/`lightenColor`:
`Math.round(channel).toString(16).padStart(2, zeroChar)`; a `NaN` channel
renders as the string `NaN`. -/
def hexByte : Option ℤ → String
  | some n => padStart2 (jsToString16 n)
  | none => "NaN"

/-- `isLightColor` (ChatBot.js:1332):
brightness `(r*299 + g*587 + b*114)/1000 > 155`, embedded as the equivalent
integer comparison `r*299 + g*587 + b*114 > 155000`; empty or `transparent`
or non-`#` strings default to light; a `NaN` brightness compares false, hence
dark. -/
def isLightColor (color : String) : Bool :=
  if color = "" ∨ color = "transparent" then true
  else if jsStartsWith color "#" then
    let hex := jsSlice1 color
    match jsParseIntHex (jsSubstr hex 0 2), jsParseIntHex (jsSubstr hex 2 2),
        jsParseIntHex (jsSubstr hex 4 2) with
    | some r, some g, some b =>
        decide (r * 299 + g * 587 + b * 114 > 155000)
    | _, _, _ => false
  else true

/-- `isDarkColor` (ChatBot.js:1348). -/
def isDarkColor (color : String) : Bool :=
  ! isLightColor color

/-- `getContrastingTextColor` (ChatBot.js:1303). -/
def getContrastingTextColor (backgroundColor : String) : String :=
  if isLightColor backgroundColor then "#ffffff" else "#2d3748"

/-- `darkenColor` (ChatBot.js:1446): each channel becomes
`Math.round(v * (100 - percent)/100)`, i.e. the rounded exact fraction
`v*(100 - percent) / 100`.  The source's percents are integers, so `percent`
is embedded as `ℤ`. -/
def darkenColor (color : String) (percent : ℤ) : String :=
  if color = "" ∨ ¬ jsStartsWith color "#" then color
  else
    let hex := jsSlice1 color
    let ch : Nat → Option ℤ := fun i =>
      (jsParseIntHex (jsSubstr hex i 2)).map fun v => jsRoundFrac ((v : ℤ) * (100 - percent)) 100
    "#" ++ hexByte (ch 0) ++ hexByte (ch 2) ++ hexByte (ch 4)

/-- `lightenColor` (ChatBot.js:1462): each channel becomes
`Math.round(v + (255 - v) * percent/100)`, i.e. the rounded exact fraction
`(100*v + (255 - v)*percent) / 100`. -/
def lightenColor (color : String) (percent : ℤ) : String :=
  if color = "" ∨ ¬ jsStartsWith color "#" then color
  else
    let hex := jsSlice1 color
    let ch : Nat → Option ℤ := fun i =>
      (jsParseIntHex (jsSubstr hex i 2)).map fun v =>
        jsRoundFrac (100 * (v : ℤ) + (255 - (v : ℤ)) * percent) 100
    "#" ++ hexByte (ch 0) ++ hexByte (ch 2) ++ hexByte (ch 4)

/-- The clamp `x < 255 ? (x < 1 ? 0 : x) : 255` of `adjustColorBrightness`. -/
def jsClamp255 (z : ℤ) : ℤ :=
  if z < 255 then (if z < 1 then 0 else z) else 255

/-- `adjustColorBrightness` (ChatBot.js:1478).  `Math.round(2.55 * percent)`
is the rounded exact fraction `255*percent / 100`; `num >> 16`,
`(num >> 8) & 0xFF` and `num & 0xFF` are embedded as division/remainder —
every call site parses at most six hex digits, so `num < 2^31` and the 32-bit
shift semantics coincide.
When `parseInt` yields `NaN`, each clamp `NaN < 255 ? … : 255` produces 255,
so the function returns `#ffffff`. -/
def adjustColorBrightness (hex0 : String) (percent : ℤ) : String :=
  if hex0 = "" ∨ ¬ jsStartsWith hex0 "#" then hex0
  else
    let hex := jsReplaceHash hex0
    match jsParseIntHex hex with
    | some num =>
        let amt : ℤ := jsRoundFrac (255 * percent) 100
        let r : ℤ := (num / 65536 : Nat) + amt
        let g : ℤ := ((num / 256) % 256 : Nat) + amt
        let b : ℤ := (num % 256 : Nat) + amt
        "#" ++ jsSlice1 (jsToString16
          (16777216 + jsClamp255 r * 65536 + jsClamp255 g * 256 + jsClamp255 b))
    | none => "#" ++ jsSlice1 (jsToString16 (16777216 + 255 * 65536 + 255 * 256 + 255))

/-- `isColorTooLight` (ChatBot.js:1249): luminance
`(0.299·r + 0.587·g + 0.114·b)/255 > 0.9`, embedded as the equivalent integer
comparison `299·r + 587·g + 114·b > 229500` (both sides scaled by `255000`);
strings whose `#`-stripped form is not 6 characters long answer `false`. -/
def isColorTooLight (color : String) : Bool :=
  let hex := jsReplaceHash color
  if hex.length ≠ 6 then false
  else
    match jsParseIntHex (jsSubstr hex 0 2), jsParseIntHex (jsSubstr hex 2 2),
        jsParseIntHex (jsSubstr hex 4 2) with
    | some r, some g, some b => decide (299 * r + 587 * g + 114 * b > 229500)
    | _, _, _ => false

/-- `isColorTooDark` (ChatBot.js:1262): luminance `< 0.1`, embedded as the
equivalent integer comparison `299·r + 587·g + 114·b < 25500`. -/
def isColorTooDark (color : String) : Bool :=
  let hex := jsReplaceHash color
  if hex.length ≠ 6 then false
  else
    match jsParseIntHex (jsSubstr hex 0 2), jsParseIntHex (jsSubstr hex 2 2),
        jsParseIntHex (jsSubstr hex 4 2) with
    | some r, some g, some b => decide (299 * r + 587 * g + 114 * b < 25500)
    | _, _, _ => false

/-- `hasGoodSaturation` (ChatBot.js:1275): saturation
`(max − min)/max > 0.15` (`0` when `max = 0`), embedded as the equivalent
integer comparison `100·(max − min) > 15·max` (for `max = 0` both give
`false`, matching the source's `0 > 0.15`). -/
def hasGoodSaturation (color : String) : Bool :=
  let hex := jsReplaceHash color
  if hex.length ≠ 6 then false
  else
    match jsParseIntHex (jsSubstr hex 0 2), jsParseIntHex (jsSubstr hex 2 2),
        jsParseIntHex (jsSubstr hex 4 2) with
    | some r, some g, some b =>
        let mx := max r (max g b)
        let mn := min r (min g b)
        if mx = 0 then false else decide (100 * (mx - mn) > 15 * mx)
    | _, _, _ => false

/-- The deny-list of generic colors (ChatBot.js:1221). -/
def genericColors : List String :=
  ["#ffffff", "#fff", "white",
   "#000000", "#000", "black",
   "#333333", "#333",
   "#666666", "#666",
   "#999999", "#999",
   "#cccccc", "#ccc",
   "#f0f0f0", "#f5f5f5", "#fafafa",
   "#007bff", "#0056b3", "#0d6efd",
   "#dc3545", "#28a745", "#ffc107",
   "#17a2b8", "#6c757d", "#343a40",
   "#667eea", "#764ba2"]

/-- `isWebsiteSpecificColor` (ChatBot.js:1215). -/
def isWebsiteSpecificColor (color : String) : Bool :=
  if color = "" then false
  else
    let normalizedColor := jsTrim (jsToLower color)
    if genericColors.contains normalizedColor then false
    else if isColorTooLight normalizedColor ∨ isColorTooDark normalizedColor then false
    else hasGoodSaturation normalizedColor

/-- `isColorTooSimilar` (ChatBot.js:1352).  The source compares
`Math.sqrt(d) < 100`; since both sides are nonnegative this is the same as
`d < 10000`, which is how we embed it (keeping the arithmetic rational).
A `NaN` distance (short hex strings) compares false. -/
def isColorTooSimilar (color1 color2 : String) : Bool :=
  if color1 = "" ∨ color2 = "" ∨ ¬ jsStartsWith color1 "#" ∨ ¬ jsStartsWith color2 "#" then
    false
  else
    let hex1 := jsSlice1 color1
    let hex2 := jsSlice1 color2
    match jsParseIntHex (jsSubstr hex1 0 2), jsParseIntHex (jsSubstr hex1 2 2),
        jsParseIntHex (jsSubstr hex1 4 2), jsParseIntHex (jsSubstr hex2 0 2),
        jsParseIntHex (jsSubstr hex2 2 2), jsParseIntHex (jsSubstr hex2 4 2) with
    | some r1, some g1, some b1, some r2, some g2, some b2 =>
        decide (((r2 : ℤ) - r1) ^ 2 + ((g2 : ℤ) - g1) ^ 2 + ((b2 : ℤ) - b1) ^ 2 < 10000)
    | _, _, _, _, _, _ => false

/-- The fixed set of named color roles produced by the theme engine. -/
structure Palette where
  primary : String
  primaryDark : String
  primaryLight : String
  secondary : String
  background : String
  text : String
  border : String
  button : String
  link : String
  accent : String
  userBg : String
  botBg : String
  headerBg : String
  headerText : String
deriving DecidableEq, Repr

/-- The raw `colors` mapping of an extracted website theme, as read by
`getThemeColors`; every role is optional. -/
structure ExtractedColors where
  primary : Option String := none
  secondary : Option String := none
  background : Option String := none
  text : Option String := none
  border : Option String := none
  button : Option String := none
  link : Option String := none
  accent : Option String := none
deriving DecidableEq, Repr

/-- `themeData` / `websiteTheme`: holds the extracted `colors` mapping. -/
structure ThemeData where
  colors : Option ExtractedColors := none
deriving DecidableEq, Repr

/-- `getDefaultThemeColors` (ChatBot.js:1195). -/
def getDefaultThemeColors : Palette where
  primary := "#667eea"
  primaryDark := "#764ba2"
  primaryLight := "#7c8bf0"
  secondary := "#f093fb"
  background := "#f8f9fa"
  text := "#2d3748"
  border := "#e2e8f0"
  button := "#667eea"
  link := "#667eea"
  accent := "#764ba2"
  userBg := "linear-gradient(135deg, #667eea 0%, #764ba2 100%)"
  botBg := "#ffffff"
  headerBg := "#667eea"
  headerText := "#ffffff"

/-- `generateBotBackgroundColor` (ChatBot.js:1291). -/
def generateBotBackgroundColor (colors : ExtractedColors) : String :=
  if jsTruthy colors.secondary ∧ colors.secondary ≠ colors.primary then
    lightenColor (colors.secondary.getD "") 60
  else if jsTruthy colors.primary then
    lightenColor (colors.primary.getD "") 75
  else "#f1f3f5"

/-- `ensureAccessibleColors` (ChatBot.js:1309).  The source mutates the record
in place and returns it; the mutation order (text, then botBg against the
updated text, then primary) is preserved. -/
def ensureAccessibleColors (colors : Palette) : Palette :=
  let text1 :=
    if isLightColor colors.background ∧ isLightColor colors.text then "#2d3748"
    else if isDarkColor colors.background ∧ isDarkColor colors.text then "#f7fafc"
    else colors.text
  let botBg1 :=
    if isLightColor colors.botBg ∧ isLightColor text1 then "#f8f9fa"
    else if isDarkColor colors.botBg ∧ isDarkColor text1 then "#e2e8f0"
    else colors.botBg
  let primary1 :=
    if isColorTooSimilar colors.primary colors.background then
      (if isLightColor colors.background then "#4299e1" else "#63b3ed")
    else colors.primary
  { colors with text := text1, botBg := botBg1, primary := primary1 }

/-- `getThemeColors` (ChatBot.js:1143), as a function of `options.themeStyle`
and `this.websiteTheme`. -/
def getThemeColors (themeStyle : String) (websiteTheme : Option ThemeData) : Palette :=
  match websiteTheme with
  | some theme =>
    match theme.colors with
    | some colors =>
      if themeStyle = "website" then
        let hasValidPrimary :=
          jsTruthy colors.primary && isWebsiteSpecificColor (colors.primary.getD "")
        if ¬ hasValidPrimary then getDefaultThemeColors
        else
          let primary := colors.primary.getD ""
          let themeColors : Palette :=
            { primary := primary
              primaryDark := darkenColor primary 20
              primaryLight := lightenColor primary 20
              secondary := jsOr colors.secondary (adjustColorBrightness primary (-15))
              background := jsOr colors.background "#ffffff"
              text := jsOr colors.text
                (getContrastingTextColor (jsOr colors.background "#ffffff"))
              border := jsOr colors.border
                (adjustColorBrightness (jsOr colors.background "#ffffff") (-8))
              button := jsOr colors.button primary
              link := jsOr colors.link primary
              accent := jsOr colors.accent primary
              userBg := primary
              botBg := generateBotBackgroundColor colors
              headerBg := primary
              headerText := getContrastingTextColor primary }
          ensureAccessibleColors themeColors
      else getDefaultThemeColors
    | none => getDefaultThemeColors
  | none => getDefaultThemeColors

/-- One entry of `selectedWebsite` / `availableWebsites`. -/
structure Website where
  id : String
  url : Option String := none
  displayName : Option String := none
  fileName : Option String := none
deriving DecidableEq, Repr

/-- `integration.customizations`. -/
structure Customizations where
  position : Option String := none
  title : Option String := none
  placeholder : Option String := none
deriving DecidableEq, Repr

/-- `integration`. -/
structure Integration where
  themeChoice : Option String := none
  customizations : Option Customizations := none
deriving DecidableEq, Repr

/-- A remote configuration snapshot (the `data` of `GET /sdk-config`); every
field the SDK reads is optional in the wire format. -/
structure Config where
  selectedWebsite : Option Website := none
  availableWebsites : Option (List Website) := none
  integration : Option Integration := none
  themeData : Option ThemeData := none
deriving DecidableEq, Repr

/-- A JSON string literal (the color strings under consideration contain no
characters needing escapes). -/
def jsonStr (s : String) : String :=
  "\"" ++ s ++ "\""

/-- One optional JSON member; `JSON.stringify` omits `undefined` members. -/
def jsonField (name : String) (v : Option String) : List String :=
  match v with
  | some s => [jsonStr name ++ ":" ++ jsonStr s]
  | none => []

/-- `JSON.stringify` of an extracted-colors mapping. -/
def stringifyColors (c : ExtractedColors) : String :=
  "\x7b" ++ String.intercalate ","
    (jsonField "primary" c.primary ++ jsonField "secondary" c.secondary ++
     jsonField "background" c.background ++ jsonField "text" c.text ++
     jsonField "border" c.border ++ jsonField "button" c.button ++
     jsonField "link" c.link ++ jsonField "accent" c.accent) ++ "\x7d"

/-- `JSON.stringify(themeData || emptyObject)` as used by the diff. -/
def stringifyThemeData : Option ThemeData → String
  | none => "\x7b\x7d"
  | some td =>
    "\x7b" ++ String.intercalate ","
      (match td.colors with
       | some c => [jsonStr "colors" ++ ":" ++ stringifyColors c]
       | none => []) ++ "\x7d"

/-- `hasConfigurationChanged` (ChatBot.js:102), as a function of the stored
baseline `this.sdkConfig` (absent before the first successful load) and the
freshly fetched configuration. -/
def hasConfigurationChanged (sdkConfig : Option Config) (newConfig : Config) : Bool :=
  match sdkConfig with
  | none => true
  | some old =>
    let oldWebsiteId := old.selectedWebsite.map Website.id
    let newWebsiteId := newConfig.selectedWebsite.map Website.id
    if oldWebsiteId ≠ newWebsiteId then true
    else
      let oldThemeChoice := old.integration.bind Integration.themeChoice
      let newThemeChoice := newConfig.integration.bind Integration.themeChoice
      if oldThemeChoice ≠ newThemeChoice then true
      else if newThemeChoice = some "website" then
        decide (stringifyThemeData old.themeData ≠ stringifyThemeData newConfig.themeData)
      else false

/-- Which message panel the chat area currently shows. -/
inductive MessagePanel where
  | initial
  | welcomeReady
  | welcomeSelectPrompt
  | invalidApiKey
  | noSites
deriving DecidableEq, Repr

/-- A JS runtime exception. -/
inductive JsError where
  | typeError
deriving DecidableEq, Repr

/-- The mutable option fields of the widget. -/
structure ChatOptions where
  position : String := "bottom-right"
  themeStyle : String := "auto"
  title : String := "ChatFlow AI Assistant"
  placeholder : String := "Ask me anything about this website..."
deriving DecidableEq, Repr

/-- The observable state of one `ChatBot` instance: its option fields, the
baseline configuration, the loaded website theme, and the UI facets the
ConfigSync logic mutates, plus the bookkeeping of the refresh timer and the
visibility/focus listeners. -/
structure ChatState where
  options : ChatOptions := {}
  sdkConfig : Option Config := none
  currentFileId : Option String := none
  websiteTheme : Option ThemeData := none
  chatHistory : List String := []
  inputDisabled : Bool := true
  inputPlaceholder : String := "Ask me anything about this website..."
  messagePanel : MessagePanel := .initial
  headerLink : Option String := none
  widgetPresent : Bool := true
  timerActive : Bool := false
  visibilityListenerActive : Bool := false
  focusListenerActive : Bool := false
  appliedPalette : Palette := getDefaultThemeColors
deriving DecidableEq, Repr

/-- `createStyles` (ChatBot.js:266): recomputes the theme palette and applies
it to the widget. -/
def createStyles (st : ChatState) : ChatState :=
  { st with appliedPalette := getThemeColors st.options.themeStyle st.websiteTheme }

/-- `enableInput` (ChatBot.js:789). -/
def enableInput (st : ChatState) : ChatState :=
  { st with
    inputDisabled := false
    inputPlaceholder := jsOrS st.options.placeholder "Ask me anything about this website..." }

/-- `clearChat` (ChatBot.js:1018). -/
def clearChat (st : ChatState) : ChatState :=
  { st with
    messagePanel := if st.currentFileId.isSome then .welcomeReady else .welcomeSelectPrompt
    chatHistory := [] }

/-- `updateChatHeader` (ChatBot.js:1009). -/
def updateChatHeader (st : ChatState) (siteName siteUrl : Option String) : ChatState :=
  { st with headerLink := jsOrOpt siteUrl siteName }

/-- `showNoSitesMessage` (ChatBot.js:965). -/
def showNoSitesMessage (st : ChatState) : ChatState :=
  { st with
    messagePanel := .noSites
    inputDisabled := true
    inputPlaceholder := "No websites available for chat" }

/-- `showApiKeyError` (ChatBot.js:245). -/
def showApiKeyError (st : ChatState) : ChatState :=
  { st with
    messagePanel := .invalidApiKey
    inputDisabled := true
    inputPlaceholder := "Invalid API key - chatbot disabled" }

/-- `setupConfigRefresh` (ChatBot.js:44): starts the 2-second interval and
attaches the `visibilitychange` and `focus` listeners. -/
def setupConfigRefresh (st : ChatState) : ChatState :=
  { st with
    timerActive := true
    visibilityListenerActive := true
    focusListenerActive := true }

/-- `destroy` (ChatBot.js:1043): clears the refresh interval and removes the
widget element; the two event listeners are not removed. -/
def destroy (st : ChatState) : ChatState :=
  { st with timerActive := false, widgetPresent := false }

/-- The customization block of `applyNewConfiguration` (ChatBot.js:142-172). -/
def applyCustomizations (st : ChatState) (customizations : Customizations) : ChatState :=
  let st :=
    if jsTruthy customizations.position ∧ customizations.position ≠ some st.options.position
    then { st with options := { st.options with position := customizations.position.getD "" } }
    else st
  let st :=
    if jsTruthy customizations.title ∧ customizations.title ≠ some st.options.title
    then { st with options := { st.options with title := customizations.title.getD "" } }
    else st
  let st :=
    if jsTruthy customizations.placeholder ∧
        customizations.placeholder ≠ some st.options.placeholder
    then
      let st :=
        { st with options := { st.options with placeholder := customizations.placeholder.getD "" } }
      if ¬ st.inputDisabled
      then { st with inputPlaceholder := customizations.placeholder.getD "" }
      else st
    else st
  st

/-- `applyNewConfiguration` (ChatBot.js:137), with JS exception semantics made
explicit: the result is the state reached so far paired with the exception, if
one was raised.  `newConfig.integration.customizations` throws a `TypeError`
when `integration` is absent, and `newConfig.availableWebsites.length` throws
when that array is absent; both accesses are unguarded in the source. -/
def applyNewConfiguration (st : ChatState) (newConfig : Config) : ChatState × Option JsError :=
  let st := { st with sdkConfig := some newConfig }
  match newConfig.integration with
  | none => (st, some JsError.typeError)
  | some integration =>
    let st :=
      match integration.customizations with
      | some customizations => applyCustomizations st customizations
      | none => st
    let st :=
      if integration.themeChoice = some "website" ∧ newConfig.themeData.isSome then
        { st with
          options := { st.options with themeStyle := "website" }
          websiteTheme := newConfig.themeData }
      else
        { st with
          options := { st.options with themeStyle := "default" }
          websiteTheme := none }
    match newConfig.selectedWebsite with
    | some w =>
      let st := { st with currentFileId := some w.id }
      let st := enableInput st
      let st := clearChat st
      let st := updateChatHeader st (jsOrOpt w.displayName w.fileName) w.url
      (createStyles st, none)
    | none =>
      match newConfig.availableWebsites with
      | none => (st, some JsError.typeError)
      | some availableWebsites =>
        match availableWebsites with
        | firstSite :: _ =>
          let st := { st with currentFileId := some firstSite.id }
          let st := enableInput st
          let st := clearChat st
          let st := updateChatHeader st (jsOrOpt firstSite.displayName firstSite.fileName)
            firstSite.url
          (createStyles st, none)
        | [] => (createStyles (showNoSitesMessage st), none)

/-- The `{success, data}` envelope of `GET /sdk-config`. -/
structure SdkResponse where
  success : Bool := true
  data : Option Config := none
deriving DecidableEq, Repr

/-- `refreshConfiguration` (ChatBot.js:69), as a function of the network
response the poll obtained.  Its `try/catch` swallows any exception, keeping
whatever mutations happened before the throw. -/
def refreshConfiguration (st : ChatState) (resp : SdkResponse) : ChatState :=
  if resp.success then
    match resp.data with
    | some newConfig =>
      if hasConfigurationChanged st.sdkConfig newConfig then
        (applyNewConfiguration st newConfig).1
      else st
    | none => st
  else st

/-- The three triggers that can start a poll. -/
inductive PollTrigger where
  | timer
  | visibilitychange
  | focus
deriving DecidableEq, Repr

/-- Whether a trigger still reaches `refreshConfiguration`: the interval only
while it is installed, the two events only while their listeners are
attached. -/
def triggerFires (st : ChatState) : PollTrigger → Bool
  | .timer => st.timerActive
  | .visibilitychange => st.visibilityListenerActive
  | .focus => st.focusListenerActive

/-- Deliver one poll trigger: if it still fires, the poll runs and its
response is processed by `refreshConfiguration`. -/
def handleTrigger (st : ChatState) (t : PollTrigger) (resp : SdkResponse) : ChatState :=
  if triggerFires st t then refreshConfiguration st resp else st

/-- `loadSdkConfiguration` (ChatBot.js:1055); its `catch` and its failure
branch both fall back to `showNoSitesMessage`. -/
def loadSdkConfiguration (st : ChatState) (resp : SdkResponse) : ChatState :=
  if resp.success then
    match resp.data with
    | some config =>
      let st := { st with sdkConfig := some config }
      match config.integration with
      | none => showNoSitesMessage st
      | some integration =>
        let st :=
          match integration.customizations with
          | some customizations =>
            let st :=
              if jsTruthy customizations.position then
                { st with options := { st.options with position := customizations.position.getD "" } }
              else st
            let st :=
              if jsTruthy customizations.title then
                { st with options := { st.options with title := customizations.title.getD "" } }
              else st
            if jsTruthy customizations.placeholder then
              { st with options := { st.options with placeholder := customizations.placeholder.getD "" } }
            else st
          | none => st
        let st :=
          if integration.themeChoice = some "website" ∧ config.themeData.isSome then
            { st with
              options := { st.options with themeStyle := "website" }
              websiteTheme := config.themeData }
          else { st with options := { st.options with themeStyle := "default" } }
        match config.selectedWebsite with
        | some w =>
          let st := { st with currentFileId := some w.id }
          let st := enableInput st
          let st := clearChat st
          let st := updateChatHeader st (jsOrOpt w.displayName w.fileName) w.url
          createStyles st
        | none =>
          match config.availableWebsites with
          | none => showNoSitesMessage st
          | some availableWebsites =>
            match availableWebsites with
            | firstSite :: _ =>
              let st := { st with currentFileId := some firstSite.id }
              let st := enableInput st
              let st := clearChat st
              let st := updateChatHeader st
                (jsOrOpt firstSite.displayName firstSite.fileName) firstSite.url
              createStyles st
            | [] => createStyles (showNoSitesMessage st)
    | none => showNoSitesMessage st
  else showNoSitesMessage st

/-- The constructor (ChatBot.js:2-42) composed with the completion of the
asynchronous `init` (ChatBot.js:212).  The synchronous part of `init` builds
the widget (input starts disabled), the constructor then unconditionally runs
`setupConfigRefresh`, and when the API-key validation response arrives `init`
resumes with `loadSdkConfiguration` on success or `showApiKeyError` on
failure. -/
def constructorRun (validationOk : Bool) (cfgResp : SdkResponse) : ChatState :=
  let st : ChatState := {}
  let st := createStyles st
  let st := setupConfigRefresh st
  if validationOk then loadSdkConfiguration st cfgResp else showApiKeyError st

/-- The canonical `#rrggbb` spelling of the 24-bit color with channels
`(r, g, b)`; used to quantify over well-formed colors in the statements
below. -/
def hexColorString (r g b : Nat) : String :=
  ⟨['#', hexChar (r / 16), hexChar (r % 16), hexChar (g / 16), hexChar (g % 16),
    hexChar (b / 16), hexChar (b % 16)]⟩

/-- A string is a well-formed hex color when it is the canonical spelling of
channels that all lie within `[0, 255]`. -/
def IsHexColor (s : String) : Prop :=
  ∃ r g b, r ≤ 255 ∧ g ≤ 255 ∧ b ≤ 255 ∧ s = hexColorString r g b

/-- Every one of the 14 color roles of a palette is a well-formed hex color —
all RGB channels within `[0, 255]`. -/
def PaletteChannelsInRange (pal : Palette) : Prop :=
  IsHexColor pal.primary ∧ IsHexColor pal.primaryDark ∧ IsHexColor pal.primaryLight ∧
  IsHexColor pal.secondary ∧ IsHexColor pal.background ∧ IsHexColor pal.text ∧
  IsHexColor pal.border ∧ IsHexColor pal.button ∧ IsHexColor pal.link ∧
  IsHexColor pal.accent ∧ IsHexColor pal.userBg ∧ IsHexColor pal.botBg ∧
  IsHexColor pal.headerBg ∧ IsHexColor pal.headerText

/-! ## Auxiliary lemmas: parsing and rendering canonical hex colors -/

theorem hexDigitVal_hexChar {n : Nat} (h : n < 16) : hexDigitVal (hexChar n) = some n := by
  have H : ∀ m, m < 16 → hexDigitVal (hexChar m) = some m := by decide
  exact H n h

theorem toLower_hexChar {n : Nat} (h : n < 16) : Char.toLower (hexChar n) = hexChar n := by
  have H : ∀ m, m < 16 → Char.toLower (hexChar m) = hexChar m := by decide
  exact H n h

theorem isWhitespace_hexChar {n : Nat} (h : n < 16) : (hexChar n).isWhitespace = false := by
  have H : ∀ m, m < 16 → (hexChar m).isWhitespace = false := by decide
  exact H n h

theorem hexColorString_ne_empty (r g b : Nat) : hexColorString r g b ≠ "" := by
  intro h
  have h2 : ('#' :: hexChar (r / 16) :: hexChar (r % 16) :: hexChar (g / 16) ::
      hexChar (g % 16) :: hexChar (b / 16) :: hexChar (b % 16) :: []) = ([] : List Char) :=
    congrArg String.data h
  exact absurd h2 (by simp)

theorem hexColorString_ne_transparent (r g b : Nat) : hexColorString r g b ≠ "transparent" := by
  intro h
  have h2 : ('#' :: hexChar (r / 16) :: hexChar (r % 16) :: hexChar (g / 16) ::
      hexChar (g % 16) :: hexChar (b / 16) :: hexChar (b % 16) :: []) =
      "transparent".data := congrArg String.data h
  rw [show "transparent".data = ['t', 'r', 'a', 'n', 's', 'p', 'a', 'r', 'e', 'n', 't'] from rfl]
    at h2
  exact absurd (List.head_eq_of_cons_eq h2) (by decide)

theorem jsStartsWith_hexColorString (r g b : Nat) :
    jsStartsWith (hexColorString r g b) "#" = true := by
  simp [jsStartsWith, hexColorString, List.isPrefixOf]

theorem jsParseIntHex_two {x y : Nat} (hx : x < 16) (hy : y < 16) :
    jsParseIntHex ⟨[hexChar x, hexChar y]⟩ = some (16 * x + y) := by
  simp [jsParseIntHex, parseHexAux, hexDigitVal_hexChar hx, hexDigitVal_hexChar hy]
  omega

theorem jsParseIntHex_six {x1 x2 x3 x4 x5 x6 : Nat} (h1 : x1 < 16) (h2 : x2 < 16)
    (h3 : x3 < 16) (h4 : x4 < 16) (h5 : x5 < 16) (h6 : x6 < 16) :
    jsParseIntHex ⟨[hexChar x1, hexChar x2, hexChar x3, hexChar x4, hexChar x5, hexChar x6]⟩ =
      some (x1 * 1048576 + x2 * 65536 + x3 * 4096 + x4 * 256 + x5 * 16 + x6) := by
  simp [jsParseIntHex, parseHexAux, hexDigitVal_hexChar h1, hexDigitVal_hexChar h2,
    hexDigitVal_hexChar h3, hexDigitVal_hexChar h4, hexDigitVal_hexChar h5,
    hexDigitVal_hexChar h6]
  omega

theorem hexDigitsCore_succ_of_pos (fuel n : Nat) (acc : List Char) (hf : 0 < fuel) :
    hexDigitsCore fuel n acc =
      if n < 16 then hexChar n :: acc
      else hexDigitsCore (fuel - 1) (n / 16) (hexChar (n % 16) :: acc) := by
  cases fuel with
  | zero => omega
  | succ f => rfl

theorem hexDigitsList_lt256 {n : Nat} (h : n < 256) :
    hexDigitsList n = if n < 16 then [hexChar n] else [hexChar (n / 16), hexChar (n % 16)] := by
  by_cases h16 : n < 16
  · rw [hexDigitsList, hexDigitsCore_succ_of_pos _ _ _ (by omega), if_pos h16, if_pos h16]
  · rw [hexDigitsList, hexDigitsCore_succ_of_pos _ _ _ (by omega), if_neg h16,
      Nat.add_sub_cancel, hexDigitsCore_succ_of_pos _ _ _ (by omega), if_pos (by omega),
      if_neg h16]

theorem padStart2_hexDigitsList {n : Nat} (h : n < 256) :
    padStart2 ⟨hexDigitsList n⟩ = ⟨[hexChar (n / 16), hexChar (n % 16)]⟩ := by
  rw [hexDigitsList_lt256 h]
  by_cases h16 : n < 16
  · rw [if_pos h16]
    have hd : n / 16 = 0 := by omega
    have hm : n % 16 = n := by omega
    rw [hd, hm, show hexChar 0 = '0' from rfl]
    rfl
  · rw [if_neg h16]
    rfl

theorem hexByte_of_range {z : ℤ} (h0 : 0 ≤ z) (h1 : z ≤ 255) :
    hexByte (some z) = ⟨[hexChar (z.toNat / 16), hexChar (z.toNat % 16)]⟩ := by
  rw [show hexByte (some z) = padStart2 (jsToString16 z) from rfl, jsToString16,
    if_neg (by omega)]
  exact padStart2_hexDigitsList (by omega)

theorem jsRoundFrac_bounds {m : ℤ} (h0 : 0 ≤ m) (h1 : m ≤ 25500) :
    0 ≤ jsRoundFrac m 100 ∧ jsRoundFrac m 100 ≤ 255 := by
  rw [jsRoundFrac, Int.fdiv_eq_ediv _ (by omega)]
  omega

theorem jsClamp255_bounds (z : ℤ) : 0 ≤ jsClamp255 z ∧ jsClamp255 z ≤ 255 := by
  unfold jsClamp255
  split_ifs <;> omega

theorem jsParseIntHex_channel0 {r g b : Nat} (hr : r ≤ 255) :
    jsParseIntHex (jsSubstr (jsSlice1 (hexColorString r g b)) 0 2) = some r := by
  rw [show jsSubstr (jsSlice1 (hexColorString r g b)) 0 2 =
      ⟨[hexChar (r / 16), hexChar (r % 16)]⟩ from rfl,
    jsParseIntHex_two (by omega) (by omega)]
  congr 1
  omega

theorem jsParseIntHex_channel2 {r g b : Nat} (hg : g ≤ 255) :
    jsParseIntHex (jsSubstr (jsSlice1 (hexColorString r g b)) 2 2) = some g := by
  rw [show jsSubstr (jsSlice1 (hexColorString r g b)) 2 2 =
      ⟨[hexChar (g / 16), hexChar (g % 16)]⟩ from rfl,
    jsParseIntHex_two (by omega) (by omega)]
  congr 1
  omega

theorem jsParseIntHex_channel4 {r g b : Nat} (hb : b ≤ 255) :
    jsParseIntHex (jsSubstr (jsSlice1 (hexColorString r g b)) 4 2) = some b := by
  rw [show jsSubstr (jsSlice1 (hexColorString r g b)) 4 2 =
      ⟨[hexChar (b / 16), hexChar (b % 16)]⟩ from rfl,
    jsParseIntHex_two (by omega) (by omega)]
  congr 1
  omega

theorem jsReplaceHash_hexColorString (r g b : Nat) :
    jsReplaceHash (hexColorString r g b) =
      ⟨[hexChar (r / 16), hexChar (r % 16), hexChar (g / 16), hexChar (g % 16),
        hexChar (b / 16), hexChar (b % 16)]⟩ := rfl

theorem darkenColor_hexColorString_isHex {r g b : Nat} (hr : r ≤ 255) (hg : g ≤ 255)
    (hb : b ≤ 255) {p : ℤ} (hp0 : 0 ≤ p) (hp1 : p ≤ 100) :
    IsHexColor (darkenColor (hexColorString r g b) p) := by
  have bound : ∀ v : Nat, v ≤ 255 →
      0 ≤ jsRoundFrac ((v : ℤ) * (100 - p)) 100 ∧
      jsRoundFrac ((v : ℤ) * (100 - p)) 100 ≤ 255 := by
    intro v hv
    refine jsRoundFrac_bounds (mul_nonneg (by exact_mod_cast Nat.zero_le v) (by omega)) ?_
    have hv' : (v : ℤ) ≤ 255 := by exact_mod_cast hv
    nlinarith
  simp only [darkenColor]
  rw [if_neg (by
      push_neg
      exact ⟨hexColorString_ne_empty r g b, jsStartsWith_hexColorString r g b⟩)]
  rw [jsParseIntHex_channel0 hr, jsParseIntHex_channel2 hg, jsParseIntHex_channel4 hb]
  show IsHexColor ("#" ++ hexByte (some (jsRoundFrac ((r : ℤ) * (100 - p)) 100)) ++
    hexByte (some (jsRoundFrac ((g : ℤ) * (100 - p)) 100)) ++
    hexByte (some (jsRoundFrac ((b : ℤ) * (100 - p)) 100)))
  rw [hexByte_of_range (bound r hr).1 (bound r hr).2,
    hexByte_of_range (bound g hg).1 (bound g hg).2,
    hexByte_of_range (bound b hb).1 (bound b hb).2]
  exact ⟨(jsRoundFrac ((r : ℤ) * (100 - p)) 100).toNat,
    (jsRoundFrac ((g : ℤ) * (100 - p)) 100).toNat,
    (jsRoundFrac ((b : ℤ) * (100 - p)) 100).toNat,
    by have := (bound r hr).2; omega, by have := (bound g hg).2; omega,
    by have := (bound b hb).2; omega, rfl⟩

theorem lightenColor_hexColorString_isHex {r g b : Nat} (hr : r ≤ 255) (hg : g ≤ 255)
    (hb : b ≤ 255) {p : ℤ} (hp0 : 0 ≤ p) (hp1 : p ≤ 100) :
    IsHexColor (lightenColor (hexColorString r g b) p) := by
  have bound : ∀ v : Nat, v ≤ 255 →
      0 ≤ jsRoundFrac (100 * (v : ℤ) + (255 - (v : ℤ)) * p) 100 ∧
      jsRoundFrac (100 * (v : ℤ) + (255 - (v : ℤ)) * p) 100 ≤ 255 := by
    intro v hv
    have hv' : (v : ℤ) ≤ 255 := by exact_mod_cast hv
    have hv0 : (0 : ℤ) ≤ (v : ℤ) := by exact_mod_cast Nat.zero_le v
    refine jsRoundFrac_bounds (by nlinarith) (by nlinarith)
  simp only [lightenColor]
  rw [if_neg (by
      push_neg
      exact ⟨hexColorString_ne_empty r g b, jsStartsWith_hexColorString r g b⟩)]
  rw [jsParseIntHex_channel0 hr, jsParseIntHex_channel2 hg, jsParseIntHex_channel4 hb]
  show IsHexColor ("#" ++ hexByte (some (jsRoundFrac (100 * (r : ℤ) + (255 - (r : ℤ)) * p) 100)) ++
    hexByte (some (jsRoundFrac (100 * (g : ℤ) + (255 - (g : ℤ)) * p) 100)) ++
    hexByte (some (jsRoundFrac (100 * (b : ℤ) + (255 - (b : ℤ)) * p) 100)))
  rw [hexByte_of_range (bound r hr).1 (bound r hr).2,
    hexByte_of_range (bound g hg).1 (bound g hg).2,
    hexByte_of_range (bound b hb).1 (bound b hb).2]
  exact ⟨(jsRoundFrac (100 * (r : ℤ) + (255 - (r : ℤ)) * p) 100).toNat,
    (jsRoundFrac (100 * (g : ℤ) + (255 - (g : ℤ)) * p) 100).toNat,
    (jsRoundFrac (100 * (b : ℤ) + (255 - (b : ℤ)) * p) 100).toNat,
    by have := (bound r hr).2; omega, by have := (bound g hg).2; omega,
    by have := (bound b hb).2; omega, rfl⟩

theorem hexDigitsList_sevendigit {a b c : Nat} (ha : a ≤ 255) (hb2 : b ≤ 255) (hc : c ≤ 255) :
    hexDigitsList (16777216 + a * 65536 + b * 256 + c) =
      ['1', hexChar (a / 16), hexChar (a % 16), hexChar (b / 16), hexChar (b % 16),
       hexChar (c / 16), hexChar (c % 16)] := by
  rw [hexDigitsList,
    hexDigitsCore_succ_of_pos _ _ _ (by omega), if_neg (by omega),
    show (16777216 + a * 65536 + b * 256 + c) / 16 =
      1048576 + a * 4096 + b * 16 + c / 16 by omega,
    show (16777216 + a * 65536 + b * 256 + c) % 16 = c % 16 by omega,
    hexDigitsCore_succ_of_pos _ _ _ (by omega), if_neg (by omega),
    show (1048576 + a * 4096 + b * 16 + c / 16) / 16 = 65536 + a * 256 + b by omega,
    show (1048576 + a * 4096 + b * 16 + c / 16) % 16 = c / 16 by omega,
    hexDigitsCore_succ_of_pos _ _ _ (by omega), if_neg (by omega),
    show (65536 + a * 256 + b) / 16 = 4096 + a * 16 + b / 16 by omega,
    show (65536 + a * 256 + b) % 16 = b % 16 by omega,
    hexDigitsCore_succ_of_pos _ _ _ (by omega), if_neg (by omega),
    show (4096 + a * 16 + b / 16) / 16 = 256 + a by omega,
    show (4096 + a * 16 + b / 16) % 16 = b / 16 by omega,
    hexDigitsCore_succ_of_pos _ _ _ (by omega), if_neg (by omega),
    show (256 + a) / 16 = 16 + a / 16 by omega,
    show (256 + a) % 16 = a % 16 by omega,
    hexDigitsCore_succ_of_pos _ _ _ (by omega), if_neg (by omega),
    show (16 + a / 16) / 16 = 1 by omega,
    show (16 + a / 16) % 16 = a / 16 by omega,
    hexDigitsCore_succ_of_pos _ _ _ (by omega), if_pos (by omega),
    show hexChar 1 = '1' from rfl]

theorem adjustColorBrightness_hexColorString_isHex {r g b : Nat} (hr : r ≤ 255)
    (hg : g ≤ 255) (hb : b ≤ 255) (p : ℤ) :
    IsHexColor (adjustColorBrightness (hexColorString r g b) p) := by
  simp only [adjustColorBrightness]
  rw [if_neg (by
      push_neg
      exact ⟨hexColorString_ne_empty r g b, jsStartsWith_hexColorString r g b⟩)]
  rw [jsReplaceHash_hexColorString,
    jsParseIntHex_six (by omega) (by omega) (by omega) (by omega) (by omega) (by omega),
    show (r / 16) * 1048576 + (r % 16) * 65536 + (g / 16) * 4096 + (g % 16) * 256 +
      (b / 16) * 16 + b % 16 = r * 65536 + g * 256 + b by omega]
  dsimp only
  rw [show ((r * 65536 + g * 256 + b) / 65536 : Nat) = r by omega,
    show ((r * 65536 + g * 256 + b) / 256 % 256 : Nat) = g by omega,
    show ((r * 65536 + g * 256 + b) % 256 : Nat) = b by omega]
  set zr := jsClamp255 ((r : ℤ) + jsRoundFrac (255 * p) 100) with hzr
  set zg := jsClamp255 ((g : ℤ) + jsRoundFrac (255 * p) 100) with hzg
  set zb := jsClamp255 ((b : ℤ) + jsRoundFrac (255 * p) 100) with hzb
  have bzr := jsClamp255_bounds ((r : ℤ) + jsRoundFrac (255 * p) 100)
  have bzg := jsClamp255_bounds ((g : ℤ) + jsRoundFrac (255 * p) 100)
  have bzb := jsClamp255_bounds ((b : ℤ) + jsRoundFrac (255 * p) 100)
  rw [jsToString16, if_neg (by rw [hzr, hzg, hzb]; omega),
    show (16777216 + zr * 65536 + zg * 256 + zb).toNat =
      16777216 + zr.toNat * 65536 + zg.toNat * 256 + zb.toNat by
        rw [hzr, hzg, hzb]; omega,
    hexDigitsList_sevendigit (by rw [hzr]; omega) (by rw [hzg]; omega) (by rw [hzb]; omega)]
  exact ⟨zr.toNat, zg.toNat, zb.toNat, by rw [hzr]; omega, by rw [hzg]; omega,
    by rw [hzb]; omega, rfl⟩

theorem isLightColor_hexColorString {r g b : Nat} (hr : r ≤ 255) (hg : g ≤ 255)
    (hb : b ≤ 255) :
    isLightColor (hexColorString r g b) = decide (r * 299 + g * 587 + b * 114 > 155000) := by
  have p1 : jsParseIntHex (jsSubstr (jsSlice1 (hexColorString r g b)) 0 2) = some r := by
    rw [show jsSubstr (jsSlice1 (hexColorString r g b)) 0 2 =
        ⟨[hexChar (r / 16), hexChar (r % 16)]⟩ from rfl,
      jsParseIntHex_two (by omega) (by omega)]
    congr 1
    omega
  have p2 : jsParseIntHex (jsSubstr (jsSlice1 (hexColorString r g b)) 2 2) = some g := by
    rw [show jsSubstr (jsSlice1 (hexColorString r g b)) 2 2 =
        ⟨[hexChar (g / 16), hexChar (g % 16)]⟩ from rfl,
      jsParseIntHex_two (by omega) (by omega)]
    congr 1
    omega
  have p3 : jsParseIntHex (jsSubstr (jsSlice1 (hexColorString r g b)) 4 2) = some b := by
    rw [show jsSubstr (jsSlice1 (hexColorString r g b)) 4 2 =
        ⟨[hexChar (b / 16), hexChar (b % 16)]⟩ from rfl,
      jsParseIntHex_two (by omega) (by omega)]
    congr 1
    omega
  simp only [isLightColor]
  rw [if_neg (by
      push_neg
      exact ⟨hexColorString_ne_empty r g b, hexColorString_ne_transparent r g b⟩),
    if_pos (jsStartsWith_hexColorString r g b)]
  rw [p1, p2, p3]

theorem isColorTooLight_hexColorString {r g b : Nat} (hr : r ≤ 255) (hg : g ≤ 255)
    (hb : b ≤ 255) :
    isColorTooLight (hexColorString r g b) =
      decide (299 * r + 587 * g + 114 * b > 229500) := by
  simp only [isColorTooLight, jsReplaceHash_hexColorString]
  rw [if_neg (by simp),
    show jsSubstr ⟨[hexChar (r / 16), hexChar (r % 16), hexChar (g / 16), hexChar (g % 16),
      hexChar (b / 16), hexChar (b % 16)]⟩ 0 2 = ⟨[hexChar (r / 16), hexChar (r % 16)]⟩
      from rfl,
    show jsSubstr ⟨[hexChar (r / 16), hexChar (r % 16), hexChar (g / 16), hexChar (g % 16),
      hexChar (b / 16), hexChar (b % 16)]⟩ 2 2 = ⟨[hexChar (g / 16), hexChar (g % 16)]⟩
      from rfl,
    show jsSubstr ⟨[hexChar (r / 16), hexChar (r % 16), hexChar (g / 16), hexChar (g % 16),
      hexChar (b / 16), hexChar (b % 16)]⟩ 4 2 = ⟨[hexChar (b / 16), hexChar (b % 16)]⟩
      from rfl,
    jsParseIntHex_two (by omega) (by omega), jsParseIntHex_two (by omega) (by omega),
    jsParseIntHex_two (by omega) (by omega),
    show 16 * (r / 16) + r % 16 = r by omega, show 16 * (g / 16) + g % 16 = g by omega,
    show 16 * (b / 16) + b % 16 = b by omega]

theorem isColorTooDark_hexColorString {r g b : Nat} (hr : r ≤ 255) (hg : g ≤ 255)
    (hb : b ≤ 255) :
    isColorTooDark (hexColorString r g b) =
      decide (299 * r + 587 * g + 114 * b < 25500) := by
  simp only [isColorTooDark, jsReplaceHash_hexColorString]
  rw [if_neg (by simp),
    show jsSubstr ⟨[hexChar (r / 16), hexChar (r % 16), hexChar (g / 16), hexChar (g % 16),
      hexChar (b / 16), hexChar (b % 16)]⟩ 0 2 = ⟨[hexChar (r / 16), hexChar (r % 16)]⟩
      from rfl,
    show jsSubstr ⟨[hexChar (r / 16), hexChar (r % 16), hexChar (g / 16), hexChar (g % 16),
      hexChar (b / 16), hexChar (b % 16)]⟩ 2 2 = ⟨[hexChar (g / 16), hexChar (g % 16)]⟩
      from rfl,
    show jsSubstr ⟨[hexChar (r / 16), hexChar (r % 16), hexChar (g / 16), hexChar (g % 16),
      hexChar (b / 16), hexChar (b % 16)]⟩ 4 2 = ⟨[hexChar (b / 16), hexChar (b % 16)]⟩
      from rfl,
    jsParseIntHex_two (by omega) (by omega), jsParseIntHex_two (by omega) (by omega),
    jsParseIntHex_two (by omega) (by omega),
    show 16 * (r / 16) + r % 16 = r by omega, show 16 * (g / 16) + g % 16 = g by omega,
    show 16 * (b / 16) + b % 16 = b by omega]

theorem hasGoodSaturation_hexColorString {r g b : Nat} (hr : r ≤ 255) (hg : g ≤ 255)
    (hb : b ≤ 255) :
    hasGoodSaturation (hexColorString r g b) =
      decide (100 * (max r (max g b) - min r (min g b)) > 15 * max r (max g b)) := by
  simp only [hasGoodSaturation, jsReplaceHash_hexColorString]
  rw [if_neg (by simp),
    show jsSubstr ⟨[hexChar (r / 16), hexChar (r % 16), hexChar (g / 16), hexChar (g % 16),
      hexChar (b / 16), hexChar (b % 16)]⟩ 0 2 = ⟨[hexChar (r / 16), hexChar (r % 16)]⟩
      from rfl,
    show jsSubstr ⟨[hexChar (r / 16), hexChar (r % 16), hexChar (g / 16), hexChar (g % 16),
      hexChar (b / 16), hexChar (b % 16)]⟩ 2 2 = ⟨[hexChar (g / 16), hexChar (g % 16)]⟩
      from rfl,
    show jsSubstr ⟨[hexChar (r / 16), hexChar (r % 16), hexChar (g / 16), hexChar (g % 16),
      hexChar (b / 16), hexChar (b % 16)]⟩ 4 2 = ⟨[hexChar (b / 16), hexChar (b % 16)]⟩
      from rfl,
    jsParseIntHex_two (by omega) (by omega), jsParseIntHex_two (by omega) (by omega),
    jsParseIntHex_two (by omega) (by omega),
    show 16 * (r / 16) + r % 16 = r by omega, show 16 * (g / 16) + g % 16 = g by omega,
    show 16 * (b / 16) + b % 16 = b by omega]
  dsimp only
  by_cases hmx : max r (max g b) = 0
  · rw [if_pos hmx]
    have : r = 0 ∧ g = 0 ∧ b = 0 := by omega
    simp [this.1, this.2.1, this.2.2]
  · rw [if_neg hmx]

theorem normalize_hexColorString {r g b : Nat} (hr : r ≤ 255) (hg : g ≤ 255) (hb : b ≤ 255) :
    jsTrim (jsToLower (hexColorString r g b)) = hexColorString r g b := by
  have t1 := toLower_hexChar (n := r / 16) (by omega)
  have t2 := toLower_hexChar (n := r % 16) (by omega)
  have t3 := toLower_hexChar (n := g / 16) (by omega)
  have t4 := toLower_hexChar (n := g % 16) (by omega)
  have t5 := toLower_hexChar (n := b / 16) (by omega)
  have t6 := toLower_hexChar (n := b % 16) (by omega)
  have w6 := isWhitespace_hexChar (n := b % 16) (by omega)
  simp [jsToLower, jsTrim, hexColorString, t1, t2, t3, t4, t5, t6, w6,
    List.dropWhile, show Char.toLower '#' = '#' from by decide,
    show ('#').isWhitespace = false from by decide]

theorem isWebsiteSpecificColor_generic_false {c : String} (hc : c ∈ genericColors) :
    isWebsiteSpecificColor c = false := by
  have H : genericColors.all (fun x => ! isWebsiteSpecificColor x) = true := by decide
  have := List.all_eq_true.mp H c hc
  simpa using this

theorem isWebsiteSpecificColor_false_of_invalid {r g b : Nat} (hr : r ≤ 255) (hg : g ≤ 255)
    (hb : b ≤ 255)
    (h : 299 * r + 587 * g + 114 * b > 229500 ∨ 299 * r + 587 * g + 114 * b < 25500 ∨
      100 * (max r (max g b) - min r (min g b)) ≤ 15 * max r (max g b)) :
    isWebsiteSpecificColor (hexColorString r g b) = false := by
  simp only [isWebsiteSpecificColor]
  rw [if_neg (hexColorString_ne_empty r g b), normalize_hexColorString hr hg hb]
  by_cases hmem : genericColors.contains (hexColorString r g b)
  · rw [if_pos hmem]
  · rw [if_neg hmem]
    rcases h with h | h | h
    · rw [if_pos (Or.inl (by rw [isColorTooLight_hexColorString hr hg hb]; simpa using h))]
    · rw [if_pos (Or.inr (by rw [isColorTooDark_hexColorString hr hg hb]; simpa using h))]
    · by_cases hld : isColorTooLight (hexColorString r g b) ∨
          isColorTooDark (hexColorString r g b)
      · rw [if_pos hld]
      · rw [if_neg hld, hasGoodSaturation_hexColorString hr hg hb]
        simpa using h

/-! ## Claims about the configuration diff -/

/-- Claim C2: `hasConfigurationChanged` returns true iff there is no baseline
yet, or the selected-website ids differ, or the theme choices differ, or —
only when the new theme choice is `website` — the serialized theme data
differ; and comparing any well-formed config against itself as baseline gives
false. -/
theorem hasConfigurationChanged_spec :
    (∀ newConfig : Config, hasConfigurationChanged none newConfig = true) ∧
    (∀ old newConfig : Config,
      hasConfigurationChanged (some old) newConfig = true ↔
        (old.selectedWebsite.map Website.id ≠ newConfig.selectedWebsite.map Website.id ∨
         old.integration.bind Integration.themeChoice ≠
           newConfig.integration.bind Integration.themeChoice ∨
         (newConfig.integration.bind Integration.themeChoice = some "website" ∧
          stringifyThemeData old.themeData ≠ stringifyThemeData newConfig.themeData))) ∧
    (∀ cfg : Config, hasConfigurationChanged (some cfg) cfg = false) := by
  refine ⟨fun _ => rfl, fun old newConfig => ?_, fun cfg => ?_⟩
  · simp only [hasConfigurationChanged]
    split_ifs with h1 h2 h3 <;> simp_all
  · simp [hasConfigurationChanged]

/-! ## Claims about the contrasting-text rule and palette validation -/

/-- Claim C4 counterexample: `#ffffff` classifies as light (brightness 255 >
155), yet `getContrastingTextColor` returns white — not the dark text
`#2d3748` the claim requires for light backgrounds.  The source returns white
exactly on light backgrounds, the reverse of the claim's direction. -/
theorem getContrastingTextColor_claim_false :
    isLightColor "#ffffff" = true ∧
    getContrastingTextColor "#ffffff" = "#ffffff" ∧
    getContrastingTextColor "#ffffff" ≠ "#2d3748" := by
  decide

/-- Claim C4 (amended): for every 6-digit hex background `#rrggbb`,
`getContrastingTextColor` classifies it as light exactly when
`(r*299 + g*587 + b*114)/1000 > 155` (stated with both sides scaled by 1000)
and returns white text for LIGHT backgrounds and the dark text `#2d3748` for
non-light backgrounds (the reverse of the claim's assignment). -/
theorem getContrastingTextColor_spec (r g b : Nat) (hr : r ≤ 255) (hg : g ≤ 255)
    (hb : b ≤ 255) :
    (isLightColor (hexColorString r g b) = true ↔ r * 299 + g * 587 + b * 114 > 155000) ∧
    getContrastingTextColor (hexColorString r g b) =
      (if r * 299 + g * 587 + b * 114 > 155000 then "#ffffff" else "#2d3748") := by
  have h := isLightColor_hexColorString hr hg hb
  refine ⟨by rw [h]; simp, ?_⟩
  rw [getContrastingTextColor, h]
  by_cases hc : r * 299 + g * 587 + b * 114 > 155000 <;> simp [hc]

/-- Witness for `getContrastingTextColor_spec` at the concrete white
background `(255, 255, 255)`. -/
theorem getContrastingTextColor_spec_witness :
    (isLightColor (hexColorString 255 255 255) = true ↔
      255 * 299 + 255 * 587 + 255 * 114 > 155000) ∧
    getContrastingTextColor (hexColorString 255 255 255) =
      (if 255 * 299 + 255 * 587 + 255 * 114 > 155000 then "#ffffff" else "#2d3748") :=
  getContrastingTextColor_spec 255 255 255 (by decide) (by decide) (by decide)

/-- Claim C1: with theme style `website`, an extracted theme whose primary
color is absent, or exactly matches the deny-list of generic colors, or (as a
6-digit hex color) has BT.601 luminance above 0.9 or below 0.1 or saturation
at most 0.15, makes `getThemeColors` return exactly the built-in default
palette of 14 role colors (the function is total — never an error).  The
luminance comparisons are stated scaled by 255000
(`0.9 ↦ 229500`, `0.1 ↦ 25500`) and the saturation comparison scaled by
`100 · max` (`0.15 ↦ 15·max`). -/
theorem getThemeColors_invalid_primary_default (colors : ExtractedColors)
    (h : colors.primary = none ∨
      ∃ c, colors.primary = some c ∧
        (c ∈ genericColors ∨
         ∃ r g b, r ≤ 255 ∧ g ≤ 255 ∧ b ≤ 255 ∧ c = hexColorString r g b ∧
           (299 * r + 587 * g + 114 * b > 229500 ∨
            299 * r + 587 * g + 114 * b < 25500 ∨
            100 * (max r (max g b) - min r (min g b)) ≤ 15 * max r (max g b)))) :
    getThemeColors "website" (some { colors := some colors }) = getDefaultThemeColors := by
  simp only [getThemeColors]
  rcases h with h | ⟨c, hc, hcase⟩
  · simp [h, jsTruthy]
  · have hfalse : isWebsiteSpecificColor c = false := by
      rcases hcase with hmem | ⟨r, g, b, hr, hg, hb, rfl, hnum⟩
      · exact isWebsiteSpecificColor_generic_false hmem
      · exact isWebsiteSpecificColor_false_of_invalid hr hg hb hnum
    simp [hc, hfalse]

/-- Witness for `getThemeColors_invalid_primary_default` at the deny-listed
primary `#ffffff`. -/
theorem getThemeColors_invalid_primary_default_witness :
    getThemeColors "website" (some { colors := some { primary := some "#ffffff" } }) =
      getDefaultThemeColors :=
  getThemeColors_invalid_primary_default { primary := some "#ffffff" }
    (Or.inr ⟨"#ffffff", rfl, Or.inl (by decide)⟩)

/-! ## Claims about the color transforms -/

/-- Claim C5 counterexample: inputs that start with `#` but whose hex part is
not exactly six hex digits are not returned unchanged — a seven-digit input
is truncated, and a three-digit input is reinterpreted as a six-digit
number.  (The claim asserts every malformed hex input is returned
unchanged.) -/
theorem colorTransforms_malformed_changed :
    darkenColor "#1234567" 0 = "#123456" ∧ darkenColor "#1234567" 0 ≠ "#1234567" ∧
    lightenColor "#1234567" 0 = "#123456" ∧ lightenColor "#1234567" 0 ≠ "#1234567" ∧
    adjustColorBrightness "#abc" (-15) = "#000096" ∧
    adjustColorBrightness "#abc" (-15) ≠ "#abc" ∧
    darkenColor "#zzzzzz" 20 = "#NaNNaNNaN" := by
  decide

/-- Claim C5 (amended): the transforms return the input unchanged exactly for
inputs that do not start with `#` (which includes the empty string); inputs
that start with `#` but have a malformed hex part are transformed anyway and
may yield a different, garbage string. -/
theorem colorTransforms_non_hash_unchanged (s : String) (percent : ℤ)
    (h : jsStartsWith s "#" = false) :
    darkenColor s percent = s ∧ lightenColor s percent = s ∧
    adjustColorBrightness s percent = s := by
  refine ⟨?_, ?_, ?_⟩ <;>
    simp [darkenColor, lightenColor, adjustColorBrightness, h]

/-- Witness for `colorTransforms_non_hash_unchanged` at the concrete
malformed input `abc` (missing `#`) and percent 50. -/
theorem colorTransforms_non_hash_unchanged_witness :
    darkenColor "abc" 50 = "abc" ∧ lightenColor "abc" 50 = "abc" ∧
    adjustColorBrightness "abc" 50 = "abc" :=
  colorTransforms_non_hash_unchanged "abc" 50 (by decide)

/-! ## Claims about the accessibility pass -/

/-- Claim C3: the code violates the contrast invariant it is meant to
establish.  On a palette with dark background, light text and light bot
background, `ensureAccessibleColors` leaves the text light and sets the bot
background to `#f8f9fa`, which is itself classified light — so the
`text`/`botBg` pair ends up both light, contradicting the invariant (and the
source's own `better contrast` comment). -/
theorem ensureAccessibleColors_breaks_botBg_contrast :
    isLightColor (ensureAccessibleColors
      { primary := "#111111", primaryDark := "", primaryLight := "", secondary := "",
        background := "#000000", text := "#ffffff", border := "", button := "",
        link := "", accent := "", userBg := "", botBg := "#ffffff",
        headerBg := "", headerText := "" }).text = true ∧
    isLightColor (ensureAccessibleColors
      { primary := "#111111", primaryDark := "", primaryLight := "", secondary := "",
        background := "#000000", text := "#ffffff", border := "", button := "",
        link := "", accent := "", userBg := "", botBg := "#ffffff",
        headerBg := "", headerText := "" }).botBg = true ∧
    (ensureAccessibleColors
      { primary := "#111111", primaryDark := "", primaryLight := "", secondary := "",
        background := "#000000", text := "#ffffff", border := "", button := "",
        link := "", accent := "", userBg := "", botBg := "#ffffff",
        headerBg := "", headerText := "" }).botBg = "#f8f9fa" := by
  decide

/-- Claim C8: the accessibility pass is idempotent — applying
`ensureAccessibleColors` twice gives the same palette as applying it once,
for every input palette. -/
theorem ensureAccessibleColors_idempotent (p : Palette) :
    ensureAccessibleColors (ensureAccessibleColors p) = ensureAccessibleColors p := by
  have l1 : isLightColor "#2d3748" = false := by decide
  have l2 : isLightColor "#f7fafc" = true := by decide
  have l3 : isLightColor "#f8f9fa" = true := by decide
  have l4 : isLightColor "#e2e8f0" = true := by decide
  by_cases hA : isLightColor p.background <;>
    by_cases hB : isLightColor p.text <;>
      by_cases hC : isLightColor p.botBg <;>
        by_cases hS : isColorTooSimilar p.primary p.background <;>
          simp [ensureAccessibleColors, isDarkColor, hA, hB, hC, hS, l1, l2, l3, l4]

/-! ## Claims about startup and teardown -/

/-- Claim C6 counterexample: the constructor runs `setupConfigRefresh`
unconditionally, so the 2-second poll timer is started even when the API-key
validation fails — the claim asserts it is never started in that case. -/
theorem constructorRun_invalid_key_timer_started :
    (constructorRun false {}).timerActive = true := by
  decide

/-- Claim C6 (amended): when the startup API-key validation fails, the chat
input remains disabled and the invalid-key message is shown, but the periodic
configuration-poll timer and the visibility/focus listeners are nevertheless
installed, because the constructor runs `setupConfigRefresh` unconditionally
before the validation response arrives. -/
theorem constructorRun_invalid_key_state (resp : SdkResponse) :
    (constructorRun false resp).inputDisabled = true ∧
    (constructorRun false resp).messagePanel = MessagePanel.invalidApiKey ∧
    (constructorRun false resp).inputPlaceholder = "Invalid API key - chatbot disabled" ∧
    (constructorRun false resp).timerActive = true ∧
    (constructorRun false resp).visibilityListenerActive = true ∧
    (constructorRun false resp).focusListenerActive = true := by
  simp [constructorRun, showApiKeyError, setupConfigRefresh, createStyles]

/-- Claim C7 counterexample: after `destroy`, a page-visibility change still
causes the configuration to be fetched and applied — the poll result mutates
the baseline configuration (from `none` to the fetched config), because
`destroy` only clears the interval and never detaches the event listeners or
checks a still-active flag. -/
theorem destroy_visibility_still_applies :
    (handleTrigger (destroy (setupConfigRefresh {})) PollTrigger.visibilitychange
      { success := true,
        data := some { selectedWebsite := some { id := "b" },
                       integration := some { themeChoice := some "default" } } }).sdkConfig =
      some { selectedWebsite := some { id := "b" },
             integration := some { themeChoice := some "default" } } ∧
    (destroy (setupConfigRefresh {})).sdkConfig = none := by
  decide

/-- Claim C7 (amended): `destroy` stops the repeating timer — a timer trigger
after teardown does nothing — but the visibility-change and focus listeners
are not removed, so those triggers still run `refreshConfiguration`, which
fetches and applies configuration exactly as before teardown. -/
theorem destroy_trigger_spec (st : ChatState) (resp : SdkResponse) :
    handleTrigger (destroy st) PollTrigger.timer resp = destroy st ∧
    (st.visibilityListenerActive = true →
      handleTrigger (destroy st) PollTrigger.visibilitychange resp =
        refreshConfiguration (destroy st) resp) ∧
    (st.focusListenerActive = true →
      handleTrigger (destroy st) PollTrigger.focus resp =
        refreshConfiguration (destroy st) resp) := by
  refine ⟨by simp [handleTrigger, triggerFires, destroy],
    fun h => by simp [handleTrigger, triggerFires, destroy, h],
    fun h => by simp [handleTrigger, triggerFires, destroy, h]⟩

/-- Witness for `destroy_trigger_spec` at a concrete constructed-then-destroyed
state. -/
theorem destroy_trigger_spec_witness :
    handleTrigger (destroy (setupConfigRefresh {})) PollTrigger.timer {} =
      destroy (setupConfigRefresh {}) ∧
    handleTrigger (destroy (setupConfigRefresh {})) PollTrigger.visibilitychange {} =
      refreshConfiguration (destroy (setupConfigRefresh {})) {} := by
  have h := destroy_trigger_spec (setupConfigRefresh {}) {}
  exact ⟨h.1, h.2.1 (by decide)⟩

/-- Claim C10: the apply step is not total over the configs the diff step
accepts: a config without `integration`, or without both `selectedWebsite`
and `availableWebsites`, makes `applyNewConfiguration` raise a `TypeError`
(unguarded `newConfig.integration.customizations` resp.
`newConfig.availableWebsites.length`), while `hasConfigurationChanged`
handles the same config without error (here: accepts it as changed against an
empty baseline). -/
theorem applyNewConfiguration_throws (st : ChatState) (cfg : Config)
    (h : cfg.integration = none ∨ (cfg.selectedWebsite = none ∧ cfg.availableWebsites = none)) :
    (applyNewConfiguration st cfg).2 = some JsError.typeError ∧
    hasConfigurationChanged none cfg = true := by
  refine ⟨?_, rfl⟩
  rcases h with h | ⟨h1, h2⟩
  · simp [applyNewConfiguration, h]
  · cases hi : cfg.integration with
    | none => simp [applyNewConfiguration, hi]
    | some integration => simp [applyNewConfiguration, hi, h1, h2]

/-- Witness for `applyNewConfiguration_throws` at the empty config (all
optional fields absent). -/
theorem applyNewConfiguration_throws_witness :
    (applyNewConfiguration {} {}).2 = some JsError.typeError ∧
    hasConfigurationChanged none {} = true :=
  applyNewConfiguration_throws {} {} (Or.inl rfl)

/-! ## Claim C9: derived palettes stay within channel range -/

theorem isHexColor_getContrastingTextColor (s : String) :
    IsHexColor (getContrastingTextColor s) := by
  rw [getContrastingTextColor]
  split_ifs
  · exact ⟨255, 255, 255, by decide, by decide, by decide, by decide⟩
  · exact ⟨45, 55, 72, by decide, by decide, by decide, by decide⟩

theorem generateBotBackgroundColor_primary_only {c : String} (h : c ≠ "") :
    generateBotBackgroundColor { primary := some c } = lightenColor c 75 := by
  simp [generateBotBackgroundColor, jsTruthy, h]

/-- The accessibility pass keeps eleven roles unchanged and can only replace
`text`, `botBg` and `primary` by fixed safe constants. -/
theorem ensureAccessibleColors_fields (q : Palette) :
    (ensureAccessibleColors q).primaryDark = q.primaryDark ∧
    (ensureAccessibleColors q).primaryLight = q.primaryLight ∧
    (ensureAccessibleColors q).secondary = q.secondary ∧
    (ensureAccessibleColors q).background = q.background ∧
    (ensureAccessibleColors q).border = q.border ∧
    (ensureAccessibleColors q).button = q.button ∧
    (ensureAccessibleColors q).link = q.link ∧
    (ensureAccessibleColors q).accent = q.accent ∧
    (ensureAccessibleColors q).userBg = q.userBg ∧
    (ensureAccessibleColors q).headerBg = q.headerBg ∧
    (ensureAccessibleColors q).headerText = q.headerText ∧
    ((ensureAccessibleColors q).text = q.text ∨ (ensureAccessibleColors q).text = "#2d3748" ∨
      (ensureAccessibleColors q).text = "#f7fafc") ∧
    ((ensureAccessibleColors q).botBg = q.botBg ∨
      (ensureAccessibleColors q).botBg = "#f8f9fa" ∨
      (ensureAccessibleColors q).botBg = "#e2e8f0") ∧
    ((ensureAccessibleColors q).primary = q.primary ∨
      (ensureAccessibleColors q).primary = "#4299e1" ∨
      (ensureAccessibleColors q).primary = "#63b3ed") := by
  refine ⟨?_, ?_, ?_, ?_, ?_, ?_, ?_, ?_, ?_, ?_, ?_, ?_, ?_, ?_⟩ <;>
    simp only [ensureAccessibleColors] <;>
      first
        | rfl
        | (split_ifs <;> simp)

/-- Shape of `getThemeColors` when the extracted primary validates: the
palette derived role by role, then passed through the accessibility pass. -/
theorem getThemeColors_valid (colors : ExtractedColors) (c : String)
    (hc : colors.primary = some c) (hne : c ≠ "") (hvalid : isWebsiteSpecificColor c = true) :
    getThemeColors "website" (some { colors := some colors }) =
      ensureAccessibleColors
        { primary := c
          primaryDark := darkenColor c 20
          primaryLight := lightenColor c 20
          secondary := jsOr colors.secondary (adjustColorBrightness c (-15))
          background := jsOr colors.background "#ffffff"
          text := jsOr colors.text (getContrastingTextColor (jsOr colors.background "#ffffff"))
          border := jsOr colors.border
            (adjustColorBrightness (jsOr colors.background "#ffffff") (-8))
          button := jsOr colors.button c
          link := jsOr colors.link c
          accent := jsOr colors.accent c
          userBg := c
          botBg := generateBotBackgroundColor colors
          headerBg := c
          headerText := getContrastingTextColor c } := by
  simp only [getThemeColors]
  simp [hc, jsTruthy, hne, hvalid]

theorem isHexColor_border_of_white : IsHexColor (adjustColorBrightness "#ffffff" (-8)) := by
  rw [show ("#ffffff" : String) = hexColorString 255 255 255 from by decide]
  exact adjustColorBrightness_hexColorString_isHex (by omega) (by omega) (by omega) (-8)

/-- Claim C9: for every extracted primary color (canonically spelled, channels
in `[0, 255]`) that passes `isWebsiteSpecificColor` validation, every one of
the 14 roles of the derived palette is again a well-formed hex color with all
three RGB channels within `[0, 255]` — the transforms clamp and never
wrap. -/
theorem derivePalette_channels_in_range (r g b : Nat) (hr : r ≤ 255) (hg : g ≤ 255)
    (hb : b ≤ 255)
    (hvalid : isWebsiteSpecificColor (hexColorString r g b) = true) :
    PaletteChannelsInRange (getThemeColors "website"
      (some { colors := some { primary := some (hexColorString r g b) } })) := by
  rw [getThemeColors_valid _ _ rfl (hexColorString_ne_empty r g b) hvalid]
  set q : Palette :=
    { primary := hexColorString r g b
      primaryDark := darkenColor (hexColorString r g b) 20
      primaryLight := lightenColor (hexColorString r g b) 20
      secondary := jsOr none (adjustColorBrightness (hexColorString r g b) (-15))
      background := jsOr none "#ffffff"
      text := jsOr none (getContrastingTextColor (jsOr none "#ffffff"))
      border := jsOr none (adjustColorBrightness (jsOr none "#ffffff") (-8))
      button := jsOr none (hexColorString r g b)
      link := jsOr none (hexColorString r g b)
      accent := jsOr none (hexColorString r g b)
      userBg := hexColorString r g b
      botBg := generateBotBackgroundColor { primary := some (hexColorString r g b) }
      headerBg := hexColorString r g b
      headerText := getContrastingTextColor (hexColorString r g b) } with hq
  obtain ⟨e1, e2, e3, e4, e5, e6, e7, e8, e9, e10, e11, et, eb, ep⟩ :=
    ensureAccessibleColors_fields q
  have hself : IsHexColor (hexColorString r g b) := ⟨r, g, b, hr, hg, hb, rfl⟩
  have c2d : IsHexColor "#2d3748" := ⟨45, 55, 72, by decide, by decide, by decide, by decide⟩
  have cf7 : IsHexColor "#f7fafc" :=
    ⟨247, 250, 252, by decide, by decide, by decide, by decide⟩
  have cf8 : IsHexColor "#f8f9fa" :=
    ⟨248, 249, 250, by decide, by decide, by decide, by decide⟩
  have ce2 : IsHexColor "#e2e8f0" :=
    ⟨226, 232, 240, by decide, by decide, by decide, by decide⟩
  have c42 : IsHexColor "#4299e1" := ⟨66, 153, 225, by decide, by decide, by decide, by decide⟩
  have c63 : IsHexColor "#63b3ed" := ⟨99, 179, 237, by decide, by decide, by decide, by decide⟩
  refine ⟨?_, ?_, ?_, ?_, ?_, ?_, ?_, ?_, ?_, ?_, ?_, ?_, ?_, ?_⟩
  · rcases ep with h | h | h <;> rw [h]
    · exact hself
    · exact c42
    · exact c63
  · rw [e1]
    exact darkenColor_hexColorString_isHex hr hg hb (by omega) (by omega)
  · rw [e2]
    exact lightenColor_hexColorString_isHex hr hg hb (by omega) (by omega)
  · rw [e3]
    exact adjustColorBrightness_hexColorString_isHex hr hg hb (-15)
  · rw [e4]
    exact ⟨255, 255, 255, by omega, by omega, by omega, rfl⟩
  · rcases et with h | h | h <;> rw [h]
    · exact isHexColor_getContrastingTextColor "#ffffff"
    · exact c2d
    · exact cf7
  · rw [e5]
    exact isHexColor_border_of_white
  · rw [e6]
    exact hself
  · rw [e7]
    exact hself
  · rw [e8]
    exact hself
  · rw [e9]
    exact hself
  · rcases eb with h | h | h <;> rw [h]
    · rw [show q.botBg =
          generateBotBackgroundColor { primary := some (hexColorString r g b) } from rfl,
        generateBotBackgroundColor_primary_only (hexColorString_ne_empty r g b)]
      exact lightenColor_hexColorString_isHex hr hg hb (by omega) (by omega)
    · exact cf8
    · exact ce2
  · rw [e10]
    exact hself
  · rw [e11]
    exact isHexColor_getContrastingTextColor (hexColorString r g b)

/-- Witness for `derivePalette_channels_in_range` at the orange primary
`#ff6600` (channels `(255, 102, 0)`), which passes validation. -/
theorem derivePalette_channels_in_range_witness :
    PaletteChannelsInRange (getThemeColors "website"
      (some { colors := some { primary := some (hexColorString 255 102 0) } })) :=
  derivePalette_channels_in_range 255 102 0 (by decide) (by decide) (by decide) (by decide)

end ChatSdk
